import Mathlib

/-!
Shallow embedding of the MINE-DD dashboard chat backend
(`chat-backend/super_csv_agent.py`, `chat-backend/backend_llms.py`,
`chat-backend/main.py`) together with theorems checking the
natural-language specification against this code.

External Python effects (the Ollama language model, `exec`/`eval` of
generated code, the FastAPI framework) are modelled as explicit oracle
parameters; exceptions raised by Python code are modelled with
`Except String` results.
-/

set_option maxHeartbeats 2000000
set_option maxRecDepth 16384

/-! ## Python string primitives

Character-list based embeddings of the Python `str` methods the code
uses (`strip`, `lower`, `startswith`, `in`, `split`, `join`). They are
written by structural recursion so that concrete witness inputs evaluate
inside the kernel. -/

/-- Python `str.strip()`: remove leading and trailing whitespace. -/
def pyStrip (s : String) : String :=
  String.mk (((s.toList.dropWhile Char.isWhitespace).reverse.dropWhile
    Char.isWhitespace).reverse)

/-- Python `str.lower()` (ASCII case folding, which is all the router's
keyword matching relies on). -/
def pyLower (s : String) : String :=
  String.mk (s.toList.map Char.toLower)

/-- Python `s.startswith(pre)`. -/
def pyStartsWith (s pre : String) : Bool :=
  pre.toList.isPrefixOf s.toList

/-- Python `"\n".join(xs)` (and `sep.join(xs)` generally). -/
def joinWith (sep : String) : List String → String
  | [] => ""
  | x :: rest => rest.foldl (fun acc y => acc ++ sep ++ y) x

/-! ## super_csv_agent.py : SimpleCSVAgent -/

/-- Outcome of the Python statement `exec(code, ..., local_namespace)` run
under `redirect_stdout(output_buffer), redirect_stderr(error_buffer)`:
either it raises an exception (whose formatted text is `msg`), or it
completes with the captured stdout and stderr texts. -/
inductive ExecOutcome where
  | raises (msg : String)
  | succeeds (stdoutText stderrText : String)
deriving DecidableEq

/-- The last line of the code, as computed by `_execute_code` lines 102-103:
`lines = code.strip().split('\n'); last_line = lines[-1].strip()`. The
last element of the `'\n'` split is the text after the final newline,
here computed as the longest newline-free suffix. -/
def lastLine (code : String) : String :=
  pyStrip (String.mk (((pyStrip code).toList.reverse.takeWhile
    (fun ch => ch ≠ Char.ofNat 10)).reverse))

/-- Embedding of `SimpleCSVAgent._execute_code` (super_csv_agent.py lines
70-113). `ex` is the outcome of the `exec` call; `evalLast` is the outcome
of `eval(last_line, ...)` followed by `str(result)`: `some s` when the
evaluation produced the string `s`, `none` when it raised (the inner
`except Exception: pass` swallows that). The function itself is total:
every return path of the Python method yields a string. -/
def execute_code (code : String) (ex : ExecOutcome) (evalLast : Option String) : String :=
  match ex with
  | .raises e => "Execution error: " ++ e
  | .succeeds stdout_output stderr_output =>
    if stderr_output ≠ "" then "Error: " ++ stderr_output
    else if stdout_output ≠ "" then pyStrip stdout_output
    else
      if ¬ (["print", "df.to_", "plt."].any (fun cmd => pyStartsWith (lastLine code) cmd)) then
        match evalLast with
        | some s => s
        | none => "Code executed successfully (no output)"
      else "Code executed successfully (no output)"

/-- Predicate used by the spec: the final line is itself an
output/plot statement (`print`, `df.to_`, `plt.`). -/
def startsOutputCmd (l : String) : Bool :=
  pyStartsWith l "print" || pyStartsWith l "df.to_" || pyStartsWith l "plt."

/-- The agent of super_csv_agent.py lines 9-13. The pandas DataFrame type
is abstract (`DF`); the claims about the agent do not depend on its
structure. -/
structure SimpleCSVAgent (DF : Type) where
  csv_path : String
  df : DF

/-- Semantics of the Python `exec`/`eval` built-ins as seen by
`_execute_code`. `runExec code df` runs `exec(code, ...)` in a namespace
whose `df` entry holds the given DataFrame value and returns the outcome
together with the (possibly mutated) `df` value left in the namespace.
`runEval line df` runs `eval(line, ...)` in that namespace and returns
`str(result)`, or `none` if it raised. Both are pure functions, matching
the determinism of a fixed interpreter run. -/
structure PyExecSem (DF : Type) where
  runExec : String → DF → ExecOutcome × DF
  runEval : String → DF → Option String

/-- One call of `SimpleCSVAgent._execute_code`. Line 76 binds the
namespace name `df` to `self.df.copy()`: the namespace receives a copy,
so the mutated value `dfAfter` produced by `exec` is confined to the
namespace and discarded when the call returns, and the agent (`self`) is
returned unchanged. (Had the source passed `self.df` without `.copy()`,
the embedding would instead return `{ agent with df := dfAfter }`.) -/
def execute_code_run {DF : Type} (sem : PyExecSem DF) (agent : SimpleCSVAgent DF)
    (code : String) : String × SimpleCSVAgent DF :=
  let dfCopy := agent.df
  let r := sem.runExec code dfCopy
  let evalLast := sem.runEval (lastLine code) r.2
  (execute_code code r.1 evalLast, agent)

/-! ## backend_llms.py : ConversationState, router, data pipeline -/

/-- Message role: `HumanMessage` vs everything else (the code only ever
tests `isinstance(m, HumanMessage)`). -/
inductive Role where
  | user
  | assistant
deriving DecidableEq

/-- One message of the LangGraph conversation state. -/
structure BMessage where
  role : Role
  content : String
deriving DecidableEq

/-- `ConversationState` of backend_llms.py lines 13-18. -/
structure ConversationState where
  messages : List BMessage
  reformulated_query : String
  original_query : String
  context_window : Nat
deriving DecidableEq

/-- Routing decision stored under the `next_node` key (lines 191-193). -/
inductive NextNode where
  | general_chat
  | query_reformulation
deriving DecidableEq

/-- Content of `state["messages"][-1]`, when the list is non-empty. -/
def lastContent (messages : List BMessage) : Option String :=
  messages.getLast?.map (fun m => m.content)

/-- Substring occurrence on character lists: some drop of `s` starts with
`pat`. This is the semantics of the Python expression `pat in s`. -/
def listContains (pat s : List Char) : Bool :=
  (List.range (s.length + 1)).any (fun i => ((s.drop i).take pat.length) == pat)

/-- Python `pat in s` on strings. -/
def strContains (s pat : String) : Bool :=
  listContains pat.toList s.toList

/-- The `data_keywords` list of `context_aware_router` (lines 178-180). -/
def data_keywords : List String :=
  ["csv", "data", "analyze", "chart", "graph", "table",
   "statistics", "numbers", "calculate", "sum", "average",
   "filter", "group", "sort", "count", "mean", "median"]

/-- The `context_phrases` list of `context_aware_router` (lines 183-185). -/
def context_phrases : List String :=
  ["that data", "those results", "the same", "also show",
   "compared to", "like before", "similar analysis",
   "from earlier", "previous", "again"]

/-- Embedding of `ChatBackend.context_aware_router` (backend_llms.py lines
170-193). `state["messages"][-1]` raises `IndexError` when the message
list is empty; this is modelled by the `Except.error` result. -/
def context_aware_router (state : ConversationState) : Except String NextNode :=
  match lastContent state.messages with
  | none => Except.error "IndexError: list index out of range"
  | some c =>
    let message := pyLower c
    let has_data_intent := data_keywords.any (fun keyword => strContains message keyword)
    let needs_context := context_phrases.any (fun phrase => strContains message phrase)
    if has_data_intent || needs_context then Except.ok NextNode.query_reformulation
    else Except.ok NextNode.general_chat

/-- Last `n` elements of a list (the Python slice `xs[-n:]` for `n > 0`). -/
def lastN {α : Type} (n : Nat) (xs : List α) : List α :=
  xs.drop (xs.length - n)

/-- The `context_messages` slice of `query_reformulation_node` (line 98):
`state["messages"][-last_n:] if len(state["messages"]) >= last_n else
state["messages"]`. -/
def context_messages_of (state : ConversationState) (last_n : Nat) : List BMessage :=
  if state.messages.length ≥ last_n then lastN last_n state.messages else state.messages

/-- String form of a role, as in `"user" if isinstance(msg, HumanMessage)
else "assistant"`. -/
def roleStr : Role → String
  | Role.user => "user"
  | Role.assistant => "assistant"

/-- The `context_str` accumulation of `query_reformulation_node` lines
101-104: one `role: content` line per context message except the current
question (`context_messages[:-1]`). -/
def contextStr (context_messages : List BMessage) : String :=
  String.join (context_messages.dropLast.map
    (fun msg => roleStr msg.role ++ ": " ++ msg.content ++ "\n"))

/-- The `reformulation_prompt` f-string of lines 107-125, assembled from
the context block and the current question. -/
def reformulation_prompt (contextCount : Nat) (context_str current_question : String) : String :=
  "\n        You are a data analysis expert. Given the conversation context below and the current question, \n        reformulate the current question into a clear, specific statement that can be mapped into a pandas query.\n\n        Conversation Context (last "
    ++ toString contextCount ++ " messages):\n        " ++ context_str
    ++ "\n\n        Current Question: " ++ current_question
    ++ "\n\n        Instructions:\n        1. Analyze the conversation flow to understand what data the user is interested in\n        2. Consider any previous filters, columns, or analysis mentioned, but give priority to the latest question\n        3. Reformulate the current question to be more specific and contextually aware\n        4. Focus on creating a query that would work well with pandas operations\n        5. If the current question references \"that data\", \"those results\", or similar, \n        specify what data based on the context\n\n        Reformulated Query (respond with only the reformulated question):\n        "

/-- The prompt `query_reformulation_node` sends to the Gateway for a given
state (context slice and current question included). -/
def reformulation_prompt_of (state : ConversationState) (last_n : Nat)
    (current_question : String) : String :=
  let cm := context_messages_of state last_n
  reformulation_prompt (cm.length - 1) (contextStr cm) current_question

/-- Embedding of `ChatBackend.query_reformulation_node` (backend_llms.py
lines 79-136). The Gateway (`self.llm.invoke` returning
`response.content`) is the oracle `llm`; a raised exception is
`Except.error`, and nothing in the node catches it. -/
def query_reformulation_node (llm : String → Except String String)
    (state : ConversationState) (last_n : Nat) : Except String ConversationState :=
  match state.messages.getLast? with
  | none =>
    Except.ok { messages := state.messages, reformulated_query := "",
                original_query := "", context_window := 0 }
  | some last =>
    let current_question := last.content
    match llm (reformulation_prompt_of state last_n current_question) with
    | Except.error e => Except.error e
    | Except.ok response =>
      Except.ok { messages := state.messages,
                  reformulated_query := pyStrip response,
                  original_query := current_question,
                  context_window := (context_messages_of state last_n).length }

/-- The `context_info` f-string of `enhanced_csv_agent_node` lines 150-156. -/
def context_info_text (original reformulated : String) (cw : Nat) : String :=
  "\n            Original question: " ++ original
    ++ "\n            Reformulated with context: " ++ reformulated
    ++ "\n            Context window: " ++ toString cw
    ++ " messages\n            \n            Please answer the reformulated question:\n            "

/-- Embedding of `ChatBackend.enhanced_csv_agent_node` (backend_llms.py
lines 138-167). `csv_agent` is the oracle for `self.csv_agent.invoke`
(returning `response['output']`); a raised exception is `Except.error`.
`state.get("reformulated_query", "") or state["messages"][-1].content`
falls back to the last message exactly when the reformulated query is the
empty string, and raises `IndexError` if both are missing. The LangGraph
`add_messages` merge appends the returned assistant message to the
state's message list. -/
def enhanced_csv_agent_node (csv_agent : String → Except String String)
    (state : ConversationState) : Except String ConversationState :=
  match (if state.reformulated_query ≠ "" then some state.reformulated_query
         else lastContent state.messages) with
  | none => Except.error "IndexError: list index out of range"
  | some query_to_use =>
    let content :=
      if state.original_query ≠ "" ∧ state.reformulated_query ≠ "" then
        context_info_text state.original_query state.reformulated_query
          state.context_window ++ query_to_use
      else query_to_use
    match csv_agent content with
    | Except.error e => Except.error e
    | Except.ok output =>
      Except.ok { messages := state.messages ++ [⟨Role.assistant, output⟩],
                  reformulated_query := state.reformulated_query,
                  original_query := state.original_query,
                  context_window := state.context_window }

/-- The data-pipeline path of the decision graph (build_graph lines 50-63):
after the router chooses `query_reformulation`, the graph runs
`query_reformulation_node` (with its default `last_n = 5`) and then
always `enhanced_csv_agent_node`; an uncaught exception in either node
fails the whole request. -/
def data_pipeline (llm csv_agent : String → Except String String)
    (state : ConversationState) : Except String ConversationState :=
  match query_reformulation_node llm state 5 with
  | Except.error e => Except.error e
  | Except.ok state2 => enhanced_csv_agent_node csv_agent state2

/-! ## main.py : ChatBackend (history buffer) and FastAPI endpoint -/

/-- The in-file `ChatBackend` of main.py lines 38-73, reduced to its
mutable state: the `history` list of (question, answer) pairs. The
prompt template and document chunks are constants folded into the LLM
oracle. -/
structure ChatBackend where
  history : List (String × String)
deriving DecidableEq

/-- One rendered history entry `f"User: {q}\nAI: {a}"` (main.py line 66). -/
def pairLine (qa : String × String) : String :=
  "User: " ++ qa.1 ++ "\nAI: " ++ qa.2

/-- The `context` string built by `ChatBackend.ask` (main.py lines 65-67):
the newline-join of the rendered history, or the fixed sentinel when the
history is empty. -/
def history_context (h : List (String × String)) : String :=
  if h.isEmpty then "The conversation has just begun."
  else joinWith "\n" (h.map pairLine)

/-- The history update of `ChatBackend.ask` (main.py lines 70-72):
`self.history.append((question, answer))` followed by
`if len(self.history) > 5: self.history.pop(0)`. -/
def appendPair (h : List (String × String)) (p : String × String) : List (String × String) :=
  let h2 := h ++ [p]
  if h2.length > 5 then h2.eraseIdx 0 else h2

/-- Embedding of `ChatBackend.ask` (main.py lines 64-73). `llm context
question` models `self.chain.invoke({...}).text()` (the chunks are a
constant); `Except.error` models a raised exception, which `ask` does not
catch — on an exception the history is left unchanged because the append
happens after the invoke. On success `ask` returns the trimmed answer
and the backend with the updated history. -/
def ask (llm : String → String → Except String String) (b : ChatBackend)
    (question : String) : Except String (String × ChatBackend) :=
  let context := history_context b.history
  match llm context question with
  | Except.error e => Except.error e
  | Except.ok response =>
    Except.ok (pyStrip response, ⟨appendPair b.history (question, pyStrip response)⟩)

/-- Backend state after one `ask` call whose exception, if any, was caught
by the caller (the endpoint's `try`): on an exception the history is
unchanged. -/
def stepBackend (llm : String → String → Except String String) (b : ChatBackend)
    (question : String) : ChatBackend :=
  match ask llm b question with
  | Except.error _ => b
  | Except.ok r => r.2

/-- Backend state after a sequence of `ask` calls. -/
def runAsks (llm : String → String → Except String String) (b : ChatBackend)
    (questions : List String) : ChatBackend :=
  questions.foldl (stepBackend llm) b

/-- The (question, answer) pairs appended to the history over a sequence
of `ask` calls, in call order; calls whose LLM invocation raised append
nothing. -/
def askTrace (llm : String → String → Except String String) :
    ChatBackend → List String → List (String × String)
  | _, [] => []
  | b, q :: qs =>
    match ask llm b q with
    | Except.error _ => askTrace llm b qs
    | Except.ok r => (q, r.1) :: askTrace llm r.2 qs

/-- A response record of the HTTP layer (main.py `ChatResponse`), reduced
to the fields the claims mention; `id` (a fresh UUID) and `timestamp`
(wall-clock time) are environment-generated and not modelled. -/
structure ChatResponse where
  type : String
  content : String
deriving DecidableEq

/-- Result of one call of the `send_message` endpoint: a 200 response
with a `ChatResponse` body, or a raised `HTTPException`. -/
inductive HTTPOutcome where
  | ok (resp : ChatResponse)
  | httpError (status : Nat) (detail : String)
deriving DecidableEq

/-- The module-level mutable state of main.py: the `chat_sessions` dict
(lines 113-114, here an association list keyed by session id) and the
single shared `chat_backend` instance (line 115). -/
structure ServerState where
  chat_sessions : List (String × List ChatResponse)
  chat_backend : ChatBackend
deriving DecidableEq

/-- Python dict lookup `chat_sessions[sid]` / `sid in chat_sessions`. -/
def session_lookup (ss : List (String × List ChatResponse)) (sid : String) :
    Option (List ChatResponse) :=
  match ss with
  | [] => none
  | (k, v) :: rest => if k = sid then some v else session_lookup rest sid

/-- In-place mutation of `chat_sessions[sid].messages`. -/
def session_update (ss : List (String × List ChatResponse)) (sid : String)
    (msgs : List ChatResponse) : List (String × List ChatResponse) :=
  ss.map (fun p => if p.1 = sid then (sid, msgs) else p)

/-- The welcome message installed in a fresh session (main.py line 176). -/
def welcome_message : ChatResponse :=
  ⟨"bot", "Hello! I\x27m your AI assistant. How can I help you today?"⟩

/-- Embedding of the `send_message` endpoint (main.py lines 162-212).
Inside the `try` block: the session is created if absent, the user
message is appended, then `chat_backend.ask(message.content)` runs. An
exception raised by `ask` reaches the `except` clause, which raises
`HTTPException(status_code=500, detail=f"Error processing message:
{str(e)}")`; the session keeps the already-appended user message and the
backend history is unchanged. On success the bot response is appended to
the session and returned. -/
def send_message (llm : String → String → Except String String) (st : ServerState)
    (session_id : String) (content : String) : HTTPOutcome × ServerState :=
  let sessions0 :=
    match session_lookup st.chat_sessions session_id with
    | some _ => st.chat_sessions
    | none => st.chat_sessions ++ [(session_id, [welcome_message])]
  let msgs0 := (session_lookup sessions0 session_id).getD []
  let sessions1 := session_update sessions0 session_id (msgs0 ++ [⟨"user", content⟩])
  match ask llm st.chat_backend content with
  | Except.error e =>
    (HTTPOutcome.httpError 500 ("Error processing message: " ++ e),
     ⟨sessions1, st.chat_backend⟩)
  | Except.ok r =>
    let msgs1 := (session_lookup sessions1 session_id).getD []
    let sessions2 := session_update sessions1 session_id (msgs1 ++ [⟨"bot", r.1⟩])
    (HTTPOutcome.ok ⟨"bot", r.1⟩, ⟨sessions2, r.2⟩)

/-- A Gateway oracle that always raises (e.g. a connection timeout). -/
def llmRaise : String → Except String String := fun _ => Except.error "timeout"

/-- An LLM oracle for main.py's chain that always raises. -/
def llmBoom : String → String → Except String String := fun _ _ => Except.error "boom"

/-- An LLM oracle for main.py's chain that answers with the conversation
context it was given, making history dependence observable. -/
def llmEcho : String → String → Except String String := fun context _ => Except.ok context

/-! ## Helper lemmas -/

/-- `listContains` decides substring occurrence. -/
theorem listContains_iff (pat s : List Char) :
    listContains pat s = true ↔ ∃ pre post, s = pre ++ pat ++ post := by
  unfold listContains
  rw [List.any_eq_true]
  constructor
  · rintro ⟨i, _, hi⟩
    rw [beq_iff_eq] at hi
    refine ⟨s.take i, (s.drop i).drop pat.length, ?_⟩
    conv_lhs => rw [← List.take_append_drop i s,
      ← List.take_append_drop pat.length (s.drop i)]
    rw [hi, List.append_assoc]
  · rintro ⟨pre, post, rfl⟩
    refine ⟨pre.length, ?_, ?_⟩
    · rw [List.mem_range]
      simp only [List.append_assoc, List.length_append]
      omega
    · rw [beq_iff_eq, List.append_assoc, List.drop_left, List.take_left]

/-- `strContains` agrees with substring occurrence on character lists. -/
theorem strContains_iff (s pat : String) :
    strContains s pat = true ↔ ∃ pre post, s.toList = pre ++ pat.toList ++ post :=
  listContains_iff pat.toList s.toList

/-- `lastN` never yields more than `n` elements. -/
theorem lastN_length_le {α : Type} (n : Nat) (xs : List α) : (lastN n xs).length ≤ n := by
  simp only [lastN, List.length_drop]
  omega

/-- `lastN n` of a list of length at most `n` is the whole list. -/
theorem lastN_of_length_le {α : Type} {n : Nat} {xs : List α} (h : xs.length ≤ n) :
    lastN n xs = xs := by
  simp only [lastN]
  rw [Nat.sub_eq_zero_of_le h, List.drop_zero]

/-- Length of `lastN n xs` is the minimum of `n` and the original length. -/
theorem lastN_length {α : Type} (n : Nat) (xs : List α) :
    (lastN n xs).length = min n xs.length := by
  simp only [lastN, List.length_drop]
  omega

/-- Keeping only the last `n` elements before appending does not change
the last `n` elements of the result. -/
theorem lastN_append_lastN {α : Type} (n : Nat) (xs ys : List α) :
    lastN n (lastN n xs ++ ys) = lastN n (xs ++ ys) := by
  simp only [lastN, List.length_append, List.length_drop]
  rw [List.drop_append_eq_append_drop, List.drop_append_eq_append_drop, List.drop_drop,
    List.length_drop]
  have h1 : xs.length - n + (xs.length - (xs.length - n) + ys.length - n) =
      xs.length + ys.length - n := by omega
  have h2 : xs.length - (xs.length - n) + ys.length - n - (xs.length - (xs.length - n)) =
      xs.length + ys.length - n - xs.length := by omega
  rw [h1, h2]

/-- `list.pop(0)` removes the head. -/
theorem eraseIdx_zero {α : Type} (l : List α) : l.eraseIdx 0 = l.drop 1 := by
  cases l <;> rfl

/-- The history update of `ask` keeps exactly the last 5 pairs. -/
theorem appendPair_eq_lastN {h : List (String × String)} (p : String × String)
    (hle : h.length ≤ 5) : appendPair h p = lastN 5 (h ++ [p]) := by
  unfold appendPair
  by_cases hlen : (h ++ [p]).length > 5
  · rw [if_pos hlen, eraseIdx_zero]
    simp only [List.length_append, List.length_cons, List.length_nil] at hlen ⊢
    simp only [lastN, List.length_append, List.length_cons, List.length_nil]
    congr 1
    omega
  · rw [if_neg hlen]
    exact (lastN_of_length_le (by omega)).symm

/-- Folding `appendPair` over any pair list, starting from a short
history, keeps exactly the last 5 of the concatenation. -/
theorem foldl_appendPair (pairs : List (String × String)) :
    ∀ h : List (String × String), h.length ≤ 5 →
      pairs.foldl appendPair h = lastN 5 (h ++ pairs) := by
  induction pairs with
  | nil => intro h hle; simpa using (lastN_of_length_le hle).symm
  | cons p ps ih =>
    intro h hle
    have hstep : appendPair h p = lastN 5 (h ++ [p]) := appendPair_eq_lastN p hle
    calc (p :: ps).foldl appendPair h = ps.foldl appendPair (appendPair h p) := rfl
    _ = lastN 5 (appendPair h p ++ ps) := ih _ (by rw [hstep]; exact lastN_length_le 5 _)
    _ = lastN 5 (lastN 5 (h ++ [p]) ++ ps) := by rw [hstep]
    _ = lastN 5 ((h ++ [p]) ++ ps) := lastN_append_lastN 5 _ _
    _ = lastN 5 (h ++ p :: ps) := by rw [List.append_assoc]; rfl

/-- The backend history after a sequence of `ask` calls is the last 5 of
the starting history extended by the trace of appended pairs. -/
theorem runAsks_history (llm : String → String → Except String String)
    (qs : List String) :
    ∀ b : ChatBackend, b.history.length ≤ 5 →
      (runAsks llm b qs).history = lastN 5 (b.history ++ askTrace llm b qs) := by
  induction qs with
  | nil => intro b hle; simpa [runAsks, askTrace] using (lastN_of_length_le hle).symm
  | cons q qs ih =>
    intro b hle
    have hrun : runAsks llm b (q :: qs) = runAsks llm (stepBackend llm b q) qs := rfl
    rcases hask : ask llm b q with e | r
    · have hstep : stepBackend llm b q = b := by simp [stepBackend, hask]
      rw [hrun, hstep, ih b hle]
      simp [askTrace, hask]
    · have hb2 : r.2.history = appendPair b.history (q, r.1) := by
        simp only [ask] at hask
        rcases hllm : llm (history_context b.history) q with e2 | resp
        · rw [hllm] at hask; exact absurd hask (by simp)
        · rw [hllm] at hask
          simp only [Except.ok.injEq] at hask
          rw [← hask]
      have hstep : stepBackend llm b q = r.2 := by simp [stepBackend, hask]
      have hle2 : r.2.history.length ≤ 5 := by
        rw [hb2, appendPair_eq_lastN _ hle]; exact lastN_length_le 5 _
      rw [hrun, hstep, ih r.2 hle2, hb2, appendPair_eq_lastN _ hle, lastN_append_lastN]
      have htr : askTrace llm b (q :: qs) = (q, r.1) :: askTrace llm r.2 qs := by
        simp [askTrace, hask]
      rw [htr, List.append_assoc]
      rfl

/-- Updating one session's message list leaves every other session's
lookup unchanged. -/
theorem session_lookup_update_ne (ss : List (String × List ChatResponse))
    (sid sid2 : String) (msgs : List ChatResponse) (h : sid2 ≠ sid) :
    session_lookup (session_update ss sid msgs) sid2 = session_lookup ss sid2 := by
  induction ss with
  | nil => rfl
  | cons p rest ih =>
    by_cases hp : p.1 = sid
    · have h1 : session_update (p :: rest) sid msgs =
          (sid, msgs) :: session_update rest sid msgs := by
        simp [session_update, hp]
      have h3 : p.1 ≠ sid2 := by rw [hp]; exact Ne.symm h
      rw [h1]
      have h2 : session_lookup ((sid, msgs) :: session_update rest sid msgs) sid2 =
          session_lookup (session_update rest sid msgs) sid2 := by
        simp [session_lookup, Ne.symm h]
      rw [h2, ih]
      simp [session_lookup, h3]
    · have h1 : session_update (p :: rest) sid msgs = p :: session_update rest sid msgs := by
        simp [session_update, hp]
      rw [h1]
      by_cases h2 : p.1 = sid2
      · simp [session_lookup, h2]
      · simp only [session_lookup]
        rw [if_neg h2, if_neg h2, ih]

/-- Appending a fresh entry for one session leaves every other session's
lookup unchanged. -/
theorem session_lookup_append_ne (ss : List (String × List ChatResponse))
    (sid sid2 : String) (msgs : List ChatResponse) (h : sid2 ≠ sid) :
    session_lookup (ss ++ [(sid, msgs)]) sid2 = session_lookup ss sid2 := by
  induction ss with
  | nil => simp [session_lookup, Ne.symm h]
  | cons p rest ih =>
    simp only [List.cons_append, session_lookup]
    by_cases h2 : p.1 = sid2
    · rw [if_pos h2, if_pos h2]
    · rw [if_neg h2, if_neg h2]
      simpa using ih

/-- The inline `any(last_line.startswith(cmd) for cmd in [...])` test of
`_execute_code` line 104 equals the spec's output-statement predicate. -/
theorem any_output_cmds (l : String) :
    (["print", "df.to_", "plt."].any (fun cmd => pyStartsWith l cmd)) = startsOutputCmd l := by
  simp [startsOutputCmd, Bool.or_assoc]

/-- The router's combined keyword test holds exactly when some keyword or
phrase occurs as a substring of the lowercased message. -/
theorem router_cond_iff (c : String) :
    ((data_keywords.any fun keyword => strContains (pyLower c) keyword) ||
     (context_phrases.any fun phrase => strContains (pyLower c) phrase)) = true ↔
    ∃ kw ∈ data_keywords ++ context_phrases,
      ∃ pre post, (pyLower c).toList = pre ++ kw.toList ++ post := by
  rw [← List.any_append, List.any_eq_true]
  constructor
  · rintro ⟨kw, hmem, hkw⟩
    exact ⟨kw, hmem, (strContains_iff _ _).mp hkw⟩
  · rintro ⟨kw, hmem, hsub⟩
    exact ⟨kw, hmem, (strContains_iff _ _).mpr hsub⟩

/-! ## Claim theorems -/

/-- C1 (amended): `SimpleCSVAgent._execute_code` always returns a string
(the embedding is a total function) chosen in this fixed order: an
exception from `exec` gives `"Execution error: " ++ msg`; else non-empty
captured stderr gives `"Error: " ++ stderr`; else non-empty captured
stdout is returned trimmed; else, when the final code line does not start
with `print`/`df.to_`/`plt.`, the string form of evaluating that line is
returned when the evaluation succeeds; in every remaining case — final
line is an output/plot statement, or the final-line evaluation raises —
the canonical success message is returned. (The original claim's
catch-all, that any exception is returned as a formatted error string, is
amended: a final-line evaluation exception is swallowed and yields the
canonical success message; see the counterexample.) -/
theorem c1_execute_code_output_priority (code out err e s : String) (evalLast : Option String) :
    (execute_code code (ExecOutcome.raises e) evalLast = "Execution error: " ++ e) ∧
    (err ≠ "" → execute_code code (ExecOutcome.succeeds out err) evalLast = "Error: " ++ err) ∧
    (out ≠ "" → execute_code code (ExecOutcome.succeeds out "") evalLast = pyStrip out) ∧
    (startsOutputCmd (lastLine code) = false →
      execute_code code (ExecOutcome.succeeds "" "") (some s) = s) ∧
    (startsOutputCmd (lastLine code) = true →
      execute_code code (ExecOutcome.succeeds "" "") evalLast =
        "Code executed successfully (no output)") ∧
    (execute_code code (ExecOutcome.succeeds "" "") none =
      "Code executed successfully (no output)") := by
  refine ⟨rfl, ?_, ?_, ?_, ?_, ?_⟩
  · intro h
    simp only [execute_code]
    rw [if_pos h]
  · intro h
    simp [execute_code, h]
  · intro h
    have hc : (["print", "df.to_", "plt."].any
        (fun cmd => pyStartsWith (lastLine code) cmd)) = false := by
      rw [any_output_cmds]; exact h
    simp only [execute_code, hc]
    simp
  · intro h
    have hc : (["print", "df.to_", "plt."].any
        (fun cmd => pyStartsWith (lastLine code) cmd)) = true := by
      rw [any_output_cmds]; exact h
    simp only [execute_code, hc]
    simp
  · by_cases hb : (["print", "df.to_", "plt."].any
        (fun cmd => pyStartsWith (lastLine code) cmd)) = true
    · simp only [execute_code, hb]
      simp
    · rw [Bool.not_eq_true] at hb
      simp only [execute_code, hb]
      simp

/-- C1 counterexample: for the code `x = 1`, `exec` succeeds and writes
nothing to either stream, the final line `x = 1` is not an output/plot
statement, and `eval("x = 1")` raises `SyntaxError` (an assignment is
not an expression), modelled by `evalLast = none`; `_execute_code`
returns the canonical success message, which is not a formatted error
string — refuting the claim's clause that any exception in the sequence
is returned as an error string. -/
theorem c1_counterexample :
    execute_code "x = 1" (ExecOutcome.succeeds "" "") none =
      "Code executed successfully (no output)" ∧
    pyStartsWith "Code executed successfully (no output)" "Execution error:" = false ∧
    pyStartsWith "Code executed successfully (no output)" "Error:" = false := by
  refine ⟨?_, by decide, by decide⟩
  rfl

/-- C1 witness: the amended priority order evaluated at concrete,
realizable inputs — an expression whose `eval` yields a value, code that
raises inside `exec` (`NameError`), code that prints, and code that
writes to the error stream without raising. -/
theorem c1_witness :
    execute_code "df.shape[0]" (ExecOutcome.succeeds "" "") (some "5702") = "5702" ∧
    execute_code "x" (ExecOutcome.raises "name \x27x\x27 is not defined") none =
      "Execution error: " ++ "name \x27x\x27 is not defined" ∧
    execute_code "print(1)" (ExecOutcome.succeeds "1\n" "") none = pyStrip "1\n" ∧
    execute_code "import sys; sys.stderr.write(\"warn\")" (ExecOutcome.succeeds "" "warn")
      none = "Error: " ++ "warn" :=
  ⟨(c1_execute_code_output_priority "df.shape[0]" "" "" "" "5702" (some "5702")).2.2.2.1
      (by decide),
   (c1_execute_code_output_priority "x" "" "" "name \x27x\x27 is not defined" "" none).1,
   (c1_execute_code_output_priority "print(1)" "1\n" "" "" "" none).2.2.1 (by decide),
   (c1_execute_code_output_priority "import sys; sys.stderr.write(\"warn\")" "" "warn" "" ""
      none).2.1 (by decide)⟩

/-- C2: `_execute_code` binds `df` to a copy of the stored DataFrame, so
the agent's canonical DataFrame is unchanged by any call (whatever the
`exec`/`eval` semantics do to the namespace copy), and executing the same
code twice in succession yields identical textual output. -/
theorem c2_executor_isolation_idempotent {DF : Type} (sem : PyExecSem DF)
    (agent : SimpleCSVAgent DF) (code : String) :
    (execute_code_run sem agent code).2 = agent ∧
    (execute_code_run sem ((execute_code_run sem agent code).2) code).1 =
      (execute_code_run sem agent code).1 :=
  ⟨rfl, rfl⟩

/-- C10: when the code writes nothing to stdout or stderr and evaluating
its final line raises (`evalLast = none`), `_execute_code` returns the
canonical success message — the same result as for code that genuinely
produced no output (e.g. one whose final line is an output statement), so
the two are indistinguishable. -/
theorem c10_eval_failure_swallowed (code code2 : String) (ev2 : Option String)
    (h : startsOutputCmd (lastLine code2) = true) :
    execute_code code (ExecOutcome.succeeds "" "") none =
      "Code executed successfully (no output)" ∧
    execute_code code (ExecOutcome.succeeds "" "") none =
      execute_code code2 (ExecOutcome.succeeds "" "") ev2 := by
  have h1 : execute_code code (ExecOutcome.succeeds "" "") none =
      "Code executed successfully (no output)" := by
    by_cases hb : (["print", "df.to_", "plt."].any
        (fun cmd => pyStartsWith (lastLine code) cmd)) = true
    · simp only [execute_code, hb]
      simp
    · rw [Bool.not_eq_true] at hb
      simp only [execute_code, hb]
      simp
  have h2 : execute_code code2 (ExecOutcome.succeeds "" "") ev2 =
      "Code executed successfully (no output)" := by
    have hc : (["print", "df.to_", "plt."].any
        (fun cmd => pyStartsWith (lastLine code2) cmd)) = true := by
      rw [any_output_cmds]; exact h
    simp only [execute_code, hc]
    simp
  exact ⟨h1, h1.trans h2.symm⟩

/-- C10 witness: `x = 1` (exec succeeds silently, `eval("x = 1")` raises
`SyntaxError`) versus a `print`-final code with no output. -/
theorem c10_witness :
    execute_code "x = 1" (ExecOutcome.succeeds "" "") none =
      "Code executed successfully (no output)" ∧
    execute_code "x = 1" (ExecOutcome.succeeds "" "") none =
      execute_code "print()" (ExecOutcome.succeeds "" "") none :=
  c10_eval_failure_swallowed "x = 1" "print()" none (by decide)

/-- C3: for a state whose last message is non-empty text, the router
returns the `query_reformulation` decision exactly when some keyword of
the fixed data-intent list or phrase of the fixed context-dependency list
occurs as a substring of the lowercased message, and the `general_chat`
decision exactly otherwise. -/
theorem c3_router_keyword_policy (st : ConversationState) (c : String)
    (hlast : lastContent st.messages = some c) (_hne : c ≠ "") :
    (context_aware_router st = Except.ok NextNode.query_reformulation ↔
      ∃ kw ∈ data_keywords ++ context_phrases,
        ∃ pre post, (pyLower c).toList = pre ++ kw.toList ++ post) ∧
    (context_aware_router st = Except.ok NextNode.general_chat ↔
      ¬ ∃ kw ∈ data_keywords ++ context_phrases,
        ∃ pre post, (pyLower c).toList = pre ++ kw.toList ++ post) := by
  by_cases hcond : ((data_keywords.any fun keyword => strContains (pyLower c) keyword) ||
      (context_phrases.any fun phrase => strContains (pyLower c) phrase)) = true
  · have hr : context_aware_router st = Except.ok NextNode.query_reformulation := by
      simp [context_aware_router, hlast, hcond]
    have hex := (router_cond_iff c).mp hcond
    rw [hr]
    constructor
    · exact ⟨fun _ => hex, fun _ => rfl⟩
    · constructor
      · intro hbad
        exact absurd hbad (by simp)
      · intro hnot
        exact absurd hex hnot
  · have hr : context_aware_router st = Except.ok NextNode.general_chat := by
      rw [Bool.not_eq_true] at hcond
      simp [context_aware_router, hlast, hcond]
    have hnex : ¬ ∃ kw ∈ data_keywords ++ context_phrases,
        ∃ pre post, (pyLower c).toList = pre ++ kw.toList ++ post :=
      fun hex => hcond ((router_cond_iff c).mpr hex)
    rw [hr]
    constructor
    · constructor
      · intro hbad
        exact absurd hbad (by simp)
      · intro hex
        exact absurd hex hnex
    · exact ⟨fun _ => hnex, fun _ => rfl⟩

/-- C3 witness: a message containing the keyword `data` routes to the
data pipeline. -/
theorem c3_witness :
    lastContent [⟨Role.user, "Show me the data"⟩] = some "Show me the data" ∧
    context_aware_router ⟨[⟨Role.user, "Show me the data"⟩], "", "", 0⟩ =
      Except.ok NextNode.query_reformulation :=
  ⟨rfl,
   (c3_router_keyword_policy ⟨[⟨Role.user, "Show me the data"⟩], "", "", 0⟩
       "Show me the data" rfl (by decide)).1.mpr
     ⟨"data", by decide, "show me the ".toList, [], by decide⟩⟩

/-- C8 (amended): for every state whose message sequence is non-empty —
including one whose last message is the empty string — the router returns
a routing decision without raising, and an empty last message routes to
`general_chat`. (The original claim also covered an empty message
sequence, where the code raises `IndexError`; see the counterexample.) -/
theorem c8_router_total_on_nonempty (st : ConversationState) (c : String)
    (hlast : lastContent st.messages = some c) :
    (context_aware_router st = Except.ok NextNode.general_chat ∨
     context_aware_router st = Except.ok NextNode.query_reformulation) ∧
    (c = "" → context_aware_router st = Except.ok NextNode.general_chat) := by
  constructor
  · by_cases hcond : ((data_keywords.any fun keyword => strContains (pyLower c) keyword) ||
        (context_phrases.any fun phrase => strContains (pyLower c) phrase)) = true
    · right
      simp [context_aware_router, hlast, hcond]
    · left
      rw [Bool.not_eq_true] at hcond
      simp [context_aware_router, hlast, hcond]
  · intro hc
    subst hc
    have hcond : ((data_keywords.any fun keyword => strContains (pyLower "") keyword) ||
        (context_phrases.any fun phrase => strContains (pyLower "") phrase)) = false := by
      decide
    simp [context_aware_router, hlast, hcond]

/-- C8 counterexample: on a state with an empty message sequence the
router raises `IndexError` (from `state["messages"][-1]`) instead of
returning a default `general_chat` decision. -/
theorem c8_counterexample :
    context_aware_router ⟨[], "", "", 0⟩ =
      Except.error "IndexError: list index out of range" := rfl

/-- C8 witness: a non-data message yields a decision without raising. -/
theorem c8_witness :
    lastContent [⟨Role.user, "hello there"⟩] = some "hello there" ∧
    (context_aware_router ⟨[⟨Role.user, "hello there"⟩], "", "", 0⟩ =
       Except.ok NextNode.general_chat ∨
     context_aware_router ⟨[⟨Role.user, "hello there"⟩], "", "", 0⟩ =
       Except.ok NextNode.query_reformulation) :=
  ⟨rfl, (c8_router_total_on_nonempty ⟨[⟨Role.user, "hello there"⟩], "", "", 0⟩
      "hello there" rfl).1⟩


/-- C4: starting from an empty history, after any sequence of
`ChatBackend.ask` calls (main.py) the history holds at most 5 pairs, and
it is exactly the most recent 5 of the appended (question, answer) pairs
in insertion order — FIFO eviction of the oldest (index 0) pair. -/
theorem c4_history_bounded_fifo (llm : String → String → Except String String)
    (qs : List String) :
    (runAsks llm ⟨[]⟩ qs).history = lastN 5 (askTrace llm ⟨[]⟩ qs) ∧
    (runAsks llm ⟨[]⟩ qs).history.length ≤ 5 := by
  have h := runAsks_history llm qs ⟨[]⟩ (by simp)
  have h0 : (⟨[]⟩ : ChatBackend).history = [] := rfl
  rw [h0, List.nil_append] at h
  exact ⟨h, by rw [h]; exact lastN_length_le 5 _⟩

/-- C5 (amended): appending `1 ≤ N` pairs to an empty history and
rendering yields the newline-join of one `User: q\nAI: a` record per
retained pair, in insertion order: all `N` records when `N ≤ 5`, and in
general exactly the most recent `min 5 N` of them. (For `N = 0` the code
renders the fixed sentinel `"The conversation has just begun."` instead
of an empty join; see the counterexample.) -/
theorem c5_render_roundtrip (pairs : List (String × String)) (h : 1 ≤ pairs.length) :
    (pairs.length ≤ 5 →
      history_context (pairs.foldl appendPair []) = joinWith "\n" (pairs.map pairLine)) ∧
    history_context (pairs.foldl appendPair []) =
      joinWith "\n" ((lastN 5 pairs).map pairLine) ∧
    ((lastN 5 pairs).map pairLine).length = min 5 pairs.length := by
  have hfold : pairs.foldl appendPair [] = lastN 5 pairs := by
    simpa using foldl_appendPair pairs [] (by simp)
  have hlen : (lastN 5 pairs).length = min 5 pairs.length := lastN_length 5 pairs
  have hne : lastN 5 pairs ≠ [] := by
    intro hcon
    rw [hcon] at hlen
    simp at hlen
    omega
  have hmain : ∀ l : List (String × String), l ≠ [] →
      history_context l = joinWith "\n" (l.map pairLine) := by
    intro l hl
    cases l with
    | nil => exact absurd rfl hl
    | cons a t => simp [history_context]
  refine ⟨?_, ?_, ?_⟩
  · intro hle
    rw [hfold, lastN_of_length_le hle]
    exact hmain pairs (by intro hcon; rw [hcon] at h; simp at h)
  · rw [hfold]
    exact hmain _ hne
  · rw [List.length_map]
    exact hlen

/-- C5 counterexample: with zero pairs appended the rendering is the
sentinel string, not the empty join of zero records that the claim's
"exactly N lines" requires at `N = 0`. -/
theorem c5_counterexample :
    history_context (List.foldl appendPair [] ([] : List (String × String))) ≠
      joinWith "\n" (([] : List (String × String)).map pairLine) := by
  decide

/-- C5 witness: one appended pair renders as its single record. -/
theorem c5_witness :
    history_context (List.foldl appendPair [] [("q", "a")]) =
      joinWith "\n" ([("q", "a")].map pairLine) :=
  (c5_render_roundtrip [("q", "a")] (by decide)).1 (by decide)

/-- C6 (amended): when `chat_backend.ask` raises, the `send_message`
endpoint's `except` clause raises `HTTPException` with status 500 and
detail `"Error processing message: …"` — it does not return a
best-effort textual answer; a textual answer record is returned exactly
when `ask` returns normally. -/
theorem c6_ask_failure_gives_500 (llm : String → String → Except String String)
    (st : ServerState) (sid content e answer : String) (b2 : ChatBackend) :
    (ask llm st.chat_backend content = Except.error e →
      (send_message llm st sid content).1 =
        HTTPOutcome.httpError 500 ("Error processing message: " ++ e)) ∧
    (ask llm st.chat_backend content = Except.ok (answer, b2) →
      (send_message llm st sid content).1 = HTTPOutcome.ok ⟨"bot", answer⟩) := by
  constructor
  · intro h
    simp [send_message, h]
  · intro h
    simp [send_message, h]

/-- C6 counterexample: a model failure (here the LLM oracle raising
`boom`) makes the endpoint produce a 500 server error, refuting the
claim that catchable answer-generation failures never yield a 5xx. -/
theorem c6_counterexample :
    (send_message llmBoom ⟨[], ⟨[]⟩⟩ "s1" "hello").1 =
      HTTPOutcome.httpError 500 "Error processing message: boom" := rfl

/-- C6 witness: the amended behavior at concrete inputs — a raising LLM
yields the 500 error, a working LLM yields a bot answer record. -/
theorem c6_witness :
    (send_message llmBoom ⟨[], ⟨[]⟩⟩ "s1" "hi").1 =
      HTTPOutcome.httpError 500 ("Error processing message: " ++ "boom") ∧
    (send_message llmEcho ⟨[], ⟨[]⟩⟩ "s1" "hi").1 =
      HTTPOutcome.ok ⟨"bot", "The conversation has just begun."⟩ :=
  ⟨(c6_ask_failure_gives_500 llmBoom ⟨[], ⟨[]⟩⟩ "s1" "hi" "boom" "" ⟨[]⟩).1 rfl,
   (c6_ask_failure_gives_500 llmEcho ⟨[], ⟨[]⟩⟩ "s1" "hi" ""
      "The conversation has just begun."
      ⟨appendPair [] ("hi", "The conversation has just begun.")⟩).2 rfl⟩

/-- Reduction of the session-creation step of `send_message` for lookups
of a different session id. -/
theorem session_lookup_create_ne (ss : List (String × List ChatResponse))
    (sid sid2 : String) (h : sid2 ≠ sid) :
    session_lookup
      (match session_lookup ss sid with
       | some _ => ss
       | none => ss ++ [(sid, [welcome_message])]) sid2 = session_lookup ss sid2 := by
  cases hl : session_lookup ss sid
  · exact session_lookup_append_ne ss sid sid2 [welcome_message] h
  · rfl

/-- C7 (amended): the per-session message lists in the `chat_sessions`
registry are isolated — posting a message to one session never alters
another session's stored message list. (The original claim's stronger
statement, that the generated answer is independent of other sessions'
prior traffic, fails: answers come from the single module-level
`chat_backend` whose history buffer is shared across all sessions; see
the counterexample.) -/
theorem c7_session_store_isolated (llm : String → String → Except String String)
    (st : ServerState) (sid sid2 content : String) (h : sid2 ≠ sid) :
    session_lookup (send_message llm st sid content).2.chat_sessions sid2 =
      session_lookup st.chat_sessions sid2 := by
  simp only [send_message]
  rcases hask : ask llm st.chat_backend content with e | r
  · simp only
    rw [session_lookup_update_ne _ _ _ _ h, session_lookup_create_ne _ _ _ h]
  · simp only
    rw [session_lookup_update_ne _ _ _ _ h, session_lookup_update_ne _ _ _ _ h,
      session_lookup_create_ne _ _ _ h]

/-- C7 counterexample: with an LLM oracle that answers with the
conversation context it is given, two runs that differ only in prior
traffic on the *other* session `s1` produce different answers for the
same message to session `s2` — the shared `chat_backend` history leaks
across sessions. -/
theorem c7_counterexample :
    (send_message llmEcho ⟨[], ⟨[]⟩⟩ "s2" "hi").1 =
      HTTPOutcome.ok ⟨"bot", "The conversation has just begun."⟩ ∧
    (send_message llmEcho (send_message llmEcho ⟨[], ⟨[]⟩⟩ "s1" "first").2 "s2" "hi").1 =
      HTTPOutcome.ok ⟨"bot", "User: first\nAI: The conversation has just begun."⟩ ∧
    ("The conversation has just begun." : String) ≠
      "User: first\nAI: The conversation has just begun." :=
  ⟨rfl, rfl, by decide⟩

/-- C7 witness: posting to session `s1` leaves session `s2`'s stored
messages untouched. -/
theorem c7_witness :
    ("s2" : String) ≠ "s1" ∧
    session_lookup
      (send_message llmEcho ⟨[("s2", [welcome_message])], ⟨[]⟩⟩ "s1" "x").2.chat_sessions
      "s2" = session_lookup [("s2", [welcome_message])] "s2" :=
  ⟨by decide,
   c7_session_store_isolated llmEcho ⟨[("s2", [welcome_message])], ⟨[]⟩⟩ "s1" "s2" "x"
     (by decide)⟩

/-- C9 (amended): when the reformulation Gateway call returns text that
strips to empty, the data pipeline falls back to the unmodified current
question as the effective query for the CSV agent node (no context
prefix is added), and the request proceeds. (The original claim's other
case fails: a Gateway call that *raises* propagates out of
`query_reformulation_node` uncaught and fails the request; see the
counterexample.) -/
theorem c9_empty_reformulation_falls_back (llm csv : String → Except String String)
    (st : ConversationState) (q r : String)
    (hlast : lastContent st.messages = some q)
    (hllm : llm (reformulation_prompt_of st 5 q) = Except.ok r)
    (htrim : pyStrip r = "") :
    data_pipeline llm csv st =
      match csv q with
      | Except.error e => Except.error e
      | Except.ok output =>
        Except.ok ⟨st.messages ++ [⟨Role.assistant, output⟩], "", q,
          (context_messages_of st 5).length⟩ := by
  obtain ⟨m, hm, hmc⟩ : ∃ m, st.messages.getLast? = some m ∧ m.content = q := by
    unfold lastContent at hlast
    cases hgl : st.messages.getLast? with
    | none => rw [hgl] at hlast; simp at hlast
    | some m =>
      rw [hgl] at hlast
      simp at hlast
      exact ⟨m, rfl, hlast⟩
  simp only [data_pipeline, query_reformulation_node, hm, hmc, hllm, htrim]
  simp only [enhanced_csv_agent_node, ne_eq, not_true_eq_false, and_false, reduceIte, hlast]

/-- C9 counterexample: a raising reformulation Gateway fails the whole
data-pipeline request even though the CSV agent would have answered —
refuting the claim that the request never fails solely because
reformulation failed. -/
theorem c9_counterexample :
    data_pipeline llmRaise (fun _ => Except.ok "the answer")
      ⟨[⟨Role.user, "count the rows"⟩], "", "", 0⟩ = Except.error "timeout" := rfl

/-- C9 witness: an empty reformulation falls back to the raw question. -/
theorem c9_witness :
    data_pipeline (fun _ => Except.ok "") (fun s => Except.ok ("ans: " ++ s))
      ⟨[⟨Role.user, "count the rows"⟩], "", "", 0⟩ =
      Except.ok ⟨[⟨Role.user, "count the rows"⟩, ⟨Role.assistant, "ans: count the rows"⟩],
        "", "count the rows", 1⟩ := by
  have h := c9_empty_reformulation_falls_back (fun _ => Except.ok "")
    (fun s => Except.ok ("ans: " ++ s))
    ⟨[⟨Role.user, "count the rows"⟩], "", "", 0⟩ "count the rows" "" rfl rfl rfl
  simpa using h
